import Mathlib

/-!
Shallow embedding of the UID-based batch-operation engine of the
yahoo-mail-mcp-server repository (src/server.js), together with proofs of
the correctness claims about it.

The embedding mirrors the JavaScript source of `server.js`:
  * `validateUIDs`     — the identifier validator (server.js lines 1139-1165)
  * `modifyEmails`     — the batch mutation engine (lines 828-875)
  * `readEmails`       — the batch read engine (lines 880-996)
  * `readEmail`        — single/array compatibility wrapper (lines 599-606)
  * `listEmails`       — the listing engine (lines 448-594)
  * `searchEmails`     — the search engine (lines 611-798)
JavaScript argument values are modelled by `JSArg`/`Elem`; the IMAP mail
store behind the external `imap` library is modelled by `Store`, and the
side effects of a call (connection creation, folder opens with their
read-only mode, command issuance, connection close) are recorded in an
explicit effect trace.
-/

namespace YahooMail

/-- A JavaScript value that may appear as an element of the `uids` argument:
an integer-valued number, a non-integer number (e.g. 1.5), `null`,
`undefined`, or some other non-number value (string, object, ...). -/
inductive Elem where
  | intNum (n : Int)
  | fracNum
  | nullv
  | undef
  | other
deriving Repr, DecidableEq

/-- JavaScript truthiness of an `Elem` (`!v` in the source negates this):
`null`, `undefined` and the number 0 are falsy. (`fracNum` and `other`
model nonzero non-integer numbers and truthy non-number values.) -/
def falsy : Elem → Bool
  | .nullv => true
  | .undef => true
  | .intNum n => n = 0
  | .fracNum => false
  | .other => false

/-- The `uids` argument of a tool call: either a JavaScript array of values
or a single non-array value. -/
inductive JSArg where
  | arr (l : List Elem)
  | nonArr (e : Elem)
deriving Repr, DecidableEq

/-- The filter predicate of server.js lines 1152-1158: an element is invalid
when it is `undefined`, `null`, not a number, not an integer, or not
strictly positive. -/
def isInvalidElem : Elem → Bool
  | .intNum n => n ≤ 0
  | _ => true

/-- `validateUIDs` (server.js lines 1139-1165): checks, in order, that the
input is present (JavaScript-truthy), is an array, is non-empty, and that
no element is invalid; returns the error message of the first violated
rule, or `none` on success. -/
def validateUIDs : JSArg → Option String
  | .nonArr e =>
      if falsy e then some "uids is required"
      else some "uids must be an array"
  | .arr l =>
      if l.length = 0 then some "uids cannot be empty"
      else if (l.filter isInvalidElem).length > 0 then
        some "uids contains invalid values (must be positive integers)"
      else none

/-- The numeric value of an element (validated elements are all `intNum`). -/
def elemVal : Elem → Int
  | .intNum n => n
  | _ => 0

/-- The numeric identifier list carried by a (validated) `uids` argument. -/
def getUids : JSArg → List Int
  | .arr l => l.map elemVal
  | .nonArr _ => []

/-- A stored mail message: its permanent UID, its IMAP flags, its size in
bytes, and its content. (Header fields not needed by any claim are
elided.) -/
structure Message where
  uid : Int
  flags : List String
  size : Nat
  content : String
deriving Repr, DecidableEq

/-- A folder is the sequence-ordered (oldest first) list of its messages. -/
abbrev MailFolder := List Message

/-- The mail store: named folders. -/
abbrev Store := List (String × List Message)

/-- Look up a folder by name (the `openBox` target). -/
def lookupFolder (st : Store) (name : String) : Option (List Message) :=
  (st.find? (fun p => p.1 = name)).map (fun p => p.2)

/-- Look up a message by UID inside a named folder. -/
def lookupMsg (st : Store) (name : String) (u : Int) : Option Message :=
  match lookupFolder st name with
  | none => none
  | some msgs => msgs.find? (fun m => m.uid = u)

/-- One observable side effect of a call against the mail session. -/
inductive Effect where
  | connect
  | openBox (folder : String) (readOnly : Bool)
  | runOp
  | endConn
deriving Repr, DecidableEq

/-- Does a character list start with the pattern? -/
def listStarts : List Char → List Char → Bool
  | [], _ => true
  | _ :: _, [] => false
  | p :: ps, c :: cs => p = c && listStarts ps cs

/-- Does a character list contain the pattern as a contiguous run? -/
def hasSubList (pat : List Char) : List Char → Bool
  | [] => listStarts pat []
  | c :: cs => listStarts pat (c :: cs) || hasSubList pat cs

/-- JavaScript `s.includes(pat)`: substring containment. -/
def strContains (s pat : String) : Bool :=
  hasSubList pat.toList s.toList

/-- The shape of the `operation` argument of `modifyEmails`: a UID-addressed
bulk mutation command issued against the mail session. It receives the open
folder name and the identifier list (the source passes the comma-joined
string `uids.join(',')`, which the imap library decodes back to this list)
and returns the error reported by the command, if any, together with the
resulting mail store. -/
def Operation := String → List Int → Store → Option String × Store

/-- Add a flag to a message if not already present (IMAP flag sets). -/
def addFlagTo (flag : String) (m : Message) : Message :=
  if m.flags.contains flag then m else { m with flags := m.flags ++ [flag] }

/-- Remove a flag from a message. -/
def delFlagFrom (flag : String) (m : Message) : Message :=
  { m with flags := m.flags.filter (fun f => f ≠ flag) }

/-- Rewrite the named folder of a store through `f`. -/
def mapFolder (st : Store) (name : String) (f : List Message → List Message) :
    Store :=
  st.map (fun p => if p.1 = name then (p.1, f p.2) else p)

/-- Modelled from the spec: the mail session's UID-addressed add-flags
command (`imap.addFlags`, provided by the external imap library, not part of
this repository). It adds the flag to every requested UID present in the
open folder; per the spec's idempotence requirement, a flag that is already
set is a successful no-op, and the command reports success. -/
def addFlagsOp (flag : String) : Operation :=
  fun fname us st =>
    (none, mapFolder st fname (fun msgs =>
      msgs.map (fun m => if us.contains m.uid then addFlagTo flag m else m)))

/-- Modelled from the spec: the mail session's UID-addressed remove-flags
command (`imap.delFlags`, external imap library). Removes the flag from
every requested UID present in the open folder; removing an absent flag is
a successful no-op. -/
def delFlagsOp (flag : String) : Operation :=
  fun fname us st =>
    (none, mapFolder st fname (fun msgs =>
      msgs.map (fun m => if us.contains m.uid then delFlagFrom flag m else m)))

/-- Modelled from the spec: the mail session's UID-addressed move command
(`imap.move`, external imap library). Moves every requested UID present in
the source folder to the destination folder; when none of the requested
UIDs exists in the source folder the server reports the generic failure
"No matching messages" (the spec: the protocol can report a generic failure
that actually means one or more identifiers in the list do not exist). -/
def moveOp (dest : String) : Operation :=
  fun fname us st =>
    let src := (lookupFolder st fname).getD []
    let moved := src.filter (fun m => us.contains m.uid)
    if moved.isEmpty then (some "No matching messages", st)
    else
      (none,
        mapFolder
          (mapFolder st fname (fun msgs =>
            msgs.filter (fun m => !us.contains m.uid)))
          dest (fun msgs => msgs ++ moved))

/-- The outcome of a `modifyEmails` call, one constructor per exit point of
server.js lines 828-875, carrying the values interpolated into the
caller-visible text at that exit. -/
inductive ModifyOutcome where
  | validationErr (msg : String)
  | folderErr (folder : String)
  | uidNotFoundErr (uids : List Int)
  | otherErr (msg : String)
  | success (opName : String) (count : Nat) (uids : List Int)
deriving Repr, DecidableEq

/-- `modifyEmails` (server.js lines 828-875): validate the `uids` argument
(resolving with an error text and performing no I/O on failure), create the
connection, open the folder in read-write mode (rejecting and closing the
connection on failure), issue the single bulk mutation command over the
comma-joined UID list, close the connection, and then either reject —
classifying errors whose message mentions "UID" or "No matching messages"
as a not-found rejection naming the whole input list — or resolve with a
success text reporting `uids.length` and the full input list. -/
def modifyEmails (op : Operation) (opName : String) (st : Store)
    (uids : JSArg) (folder : String) :
    ModifyOutcome × Store × List Effect :=
  match validateUIDs uids with
  | some e => (.validationErr e, st, [])
  | none =>
    let us := getUids uids
    match lookupFolder st folder with
    | none =>
        (.folderErr folder, st,
          [.connect, .openBox folder false, .endConn])
    | some _ =>
        let r := op folder us st
        let tr := [.connect, .openBox folder false, .runOp, .endConn]
        match r.1 with
        | some m =>
            if strContains m "UID" || strContains m "No matching messages"
            then (.uidNotFoundErr us, r.2, tr)
            else (.otherErr m, r.2, tr)
        | none => (.success opName us.length us, r.2, tr)

/-- `markAsRead` (server.js lines 1001-1008). -/
def markAsRead (st : Store) (uids : JSArg) (folder : String) :
    ModifyOutcome × Store × List Effect :=
  modifyEmails (addFlagsOp "\\Seen") "marked as read" st uids folder

/-- `markAsUnread` (server.js lines 1013-1020). -/
def markAsUnread (st : Store) (uids : JSArg) (folder : String) :
    ModifyOutcome × Store × List Effect :=
  modifyEmails (delFlagsOp "\\Seen") "marked as unread" st uids folder

/-- `flagEmails` (server.js lines 1025-1032). -/
def flagEmails (st : Store) (uids : JSArg) (folder : String) :
    ModifyOutcome × Store × List Effect :=
  modifyEmails (addFlagsOp "\\Flagged") "flagged" st uids folder

/-- `unflagEmails` (server.js lines 1037-1044). -/
def unflagEmails (st : Store) (uids : JSArg) (folder : String) :
    ModifyOutcome × Store × List Effect :=
  modifyEmails (delFlagsOp "\\Flagged") "unflagged" st uids folder

/-- `deleteEmails` (server.js lines 1049-1056): move to Trash. -/
def deleteEmails (st : Store) (uids : JSArg) (folder : String) :
    ModifyOutcome × Store × List Effect :=
  modifyEmails (moveOp "Trash") "moved to Trash" st uids folder

/-- `archiveEmails` (server.js lines 1061-1068): move to Archive. -/
def archiveEmails (st : Store) (uids : JSArg) (folder : String) :
    ModifyOutcome × Store × List Effect :=
  modifyEmails (moveOp "Archive") "archived" st uids folder

/-- `moveEmails` (server.js lines 1073-1080): move to a named folder. -/
def moveEmails (st : Store) (uids : JSArg) (folderName : String)
    (sourceFolder : String) : ModifyOutcome × Store × List Effect :=
  modifyEmails (moveOp folderName) ("moved to " ++ folderName) st uids
    sourceFolder

/-- The identifiers a `modifyEmails` outcome reports to the caller as
succeeded (only the success text at line 869 names succeeded UIDs). -/
def reportedSucceeded : ModifyOutcome → List Int
  | .success _ _ us => us
  | _ => []

/-- The identifiers a `modifyEmails` outcome reports to the caller as
failed / not found (only the rejection at line 859 names UIDs). -/
def reportedFailed : ModifyOutcome → List Int
  | .uidNotFoundErr us => us
  | _ => []

/-- The succeeded count a `modifyEmails` outcome reports to the caller
(the number interpolated into the success text at line 869). -/
def reportedCount : ModifyOutcome → Option Nat
  | .success _ c _ => some c
  | _ => none

/-- How many of the given identifiers name a message whose stored state
differs between two stores — the number of identifiers actually mutated. -/
def countChanged (pre post : Store) (fname : String) (us : List Int) : Nat :=
  (us.filter (fun u => lookupMsg pre fname u != lookupMsg post fname u)).length

/-- Insertion step for `sortBy`. -/
def insertBy (le : α → α → Bool) (a : α) : List α → List α
  | [] => [a]
  | x :: xs => if le a x then a :: x :: xs else x :: insertBy le a xs

/-- Insertion sort with a boolean comparison, modelling the JavaScript
`Array.prototype.sort` calls of the source. -/
def sortBy (le : α → α → Bool) (l : List α) : List α :=
  l.foldr (insertBy le) []

/-- The outcome of a `readEmails` call, one constructor per exit point of
server.js lines 880-996. The rejection for missing UIDs (lines 961-967)
carries the missing identifiers and the found/requested counts interpolated
into its message — and no message contents. -/
inductive ReadOutcome where
  | validationErr (msg : String)
  | folderErr (folder : String)
  | notFoundErr (missing : List Int) (foundCount : Nat) (requestedCount : Nat)
  | success (emails : List Message)
deriving Repr, DecidableEq

/-- The messages a UID-addressed fetch returns (server.js line 905): the
folder messages whose UID is among the requested identifiers. -/
def fetchedOf (msgs : List Message) (us : List Int) : List Message :=
  msgs.filter (fun m => us.contains m.uid)

/-- The requested identifiers absent from the fetch results (server.js line
960): the UIDs of the fetched messages are collected into `foundUIDs`, and
the request list is filtered down to those not found. -/
def missingOf (msgs : List Message) (us : List Int) : List Int :=
  us.filter (fun u => !((fetchedOf msgs us).map (fun m => m.uid)).contains u)

/-- `readEmails` (server.js lines 880-996): validate the `uids` argument
(no I/O on failure), connect, open the folder in read-only mode, fetch by
UID, close the connection, compute the requested identifiers absent from
the fetch results, and either reject naming those missing identifiers
(discarding the fetched contents) or resolve with the fetched messages
sorted by UID ascending. -/
def readEmails (st : Store) (uids : JSArg) (folder : String) :
    ReadOutcome × List Effect :=
  match validateUIDs uids with
  | some e => (.validationErr e, [])
  | none =>
    let us := getUids uids
    match lookupFolder st folder with
    | none =>
        (.folderErr folder, [.connect, .openBox folder true, .endConn])
    | some msgs =>
        let tr := [.connect, .openBox folder true, .runOp, .endConn]
        if (missingOf msgs us).isEmpty then
          (.success (sortBy (fun a b => a.uid ≤ b.uid) (fetchedOf msgs us)), tr)
        else
          (.notFoundErr (missingOf msgs us) (fetchedOf msgs us).length
            us.length, tr)

/-- `readEmail` (server.js lines 599-606): wraps a non-array argument into
a one-element array for backward compatibility, then delegates to
`readEmails`. -/
def readEmail (st : Store) (uids : JSArg) (folder : String) :
    ReadOutcome × List Effect :=
  match uids with
  | .arr l => readEmails st (.arr l) folder
  | .nonArr e => readEmails st (.arr [e]) folder

/-- The message contents a `ReadOutcome` returns to the caller (only the
success exit at lines 987-992 returns contents). -/
def returnedEmails : ReadOutcome → List Message
  | .success es => es
  | _ => []

/-- A listing/search result record: the stable UID, the ephemeral sequence
number, the size and the flags (header fields elided). -/
structure Listed where
  uid : Int
  seqNo : Nat
  size : Nat
  flags : List String
deriving Repr, DecidableEq

/-- Pair each message of a folder with its 1-based sequence position. -/
def withSeq (msgs : List Message) : List (Nat × Message) :=
  msgs.enum.map (fun p => (p.1 + 1, p.2))

/-- Build the listing record of a (sequence number, message) pair. -/
def mkListed (p : Nat × Message) : Listed :=
  ⟨p.2.uid, p.1, p.2.size, p.2.flags⟩

/-- The outcome of a `listEmails` call, one constructor per exit point of
server.js lines 448-594. `success` carries the email records, the folder's
total message count, and the echoed offset/limit; the resolved message
field is `some "Offset exceeds available messages"` exactly on the
empty-window exit of lines 512-528. -/
inductive ListOutcome where
  | paramErr (msg : String)
  | folderErr (folder : String)
  | success (emails : List Listed) (totalCount : Nat) (offset : Int)
      (limit : Int) (msg : Option String)
deriving Repr, DecidableEq

/-- `listEmails` (server.js lines 448-594): validate `count` (1..50) and
`offset` (non-negative) before any I/O, connect, open the folder in
read-only mode, and page from the newest message: with `total` messages the
fetched sequence window is `max 1 (total - offset - count + 1)` to
`max 1 (total - offset)`; an empty folder and a reversed window resolve
with an empty email list and the true total; otherwise the messages of the
window are fetched and sorted by sequence number descending. -/
def listEmails (st : Store) (count : Int) (folder : String) (offset : Int) :
    ListOutcome × List Effect :=
  if count < 1 then (.paramErr "count must be at least 1", [])
  else if count > 50 then
    (.paramErr "count cannot exceed 50 (use search or filters for larger results)", [])
  else if offset < 0 then (.paramErr "offset must be non-negative", [])
  else
    match lookupFolder st folder with
    | none =>
        (.folderErr folder, [.connect, .openBox folder true, .endConn])
    | some msgs =>
        let total : Int := msgs.length
        if total = 0 then
          (.success [] 0 0 count none,
            [.connect, .openBox folder true, .endConn])
        else
          let startSeq := max 1 (total - offset - count + 1)
          let endSeq := max 1 (total - offset)
          if startSeq > endSeq then
            (.success [] msgs.length offset count
                (some "Offset exceeds available messages"),
              [.connect, .openBox folder true, .endConn])
          else
            let fetched := (withSeq msgs).filter
              (fun p => startSeq ≤ (p.1 : Int) && (p.1 : Int) ≤ endSeq)
            let emails :=
              sortBy (fun a b => b.seqNo ≤ a.seqNo) (fetched.map mkListed)
            (.success emails msgs.length offset count none,
              [.connect, .openBox folder true, .runOp, .endConn])

/-- The outcome of a `searchEmails` call (server.js lines 611-798),
restricted to the exits the claims need. -/
inductive SearchOutcome where
  | paramErr (msg : String)
  | folderErr (folder : String)
  | success (emails : List Listed) (totalMatches : Nat)
deriving Repr, DecidableEq

/-- JavaScript `results.slice(-count)`: the last `count` elements. -/
def takeLast (n : Nat) (l : List α) : List α :=
  l.drop (l.length - n)

/-- `searchEmails` (server.js lines 611-798): validate that `query` is
present and `count` is in 1..50 before any I/O, connect, open the folder in
read-only mode, run the server-side IMAP SEARCH — modelled by the
`crit` predicate, since the criteria are evaluated by the external mail
server — keep the last `count` matching UIDs, fetch them, and resolve with
the records sorted by UID descending. -/
def searchEmails (st : Store) (crit : Message → Bool)
    (queryPresent : Bool) (count : Int) (folder : String) :
    SearchOutcome × List Effect :=
  if !queryPresent then
    (.paramErr "query is required (use empty string for searches without text criteria)", [])
  else if count < 1 then (.paramErr "count must be at least 1", [])
  else
    match lookupFolder st folder with
    | none =>
        (.folderErr folder, [.connect, .openBox folder true, .endConn])
    | some msgs =>
        let results := (msgs.filter crit).map (fun m => m.uid)
        if results.isEmpty then
          (.success [] 0, [.connect, .openBox folder true, .endConn])
        else
          let limited := takeLast count.toNat results
          let fetched := (withSeq msgs).filter
            (fun p => limited.contains p.2.uid)
          let emails :=
            sortBy (fun a b => b.uid ≤ a.uid) (fetched.map mkListed)
          (.success emails results.length,
            [.connect, .openBox folder true, .runOp, .endConn])

/-- An element the validator accepts: an integer strictly greater than
zero (the negation of `isInvalidElem`). -/
def elemOK : Elem → Bool
  | .intNum n => 0 < n
  | _ => false

/-- The inputs the validator accepts, per the amended claim C6: non-empty
arrays all of whose elements are integers strictly greater than zero
(duplicates permitted — distinctness is not checked). -/
def isGoodUids (a : JSArg) : Prop :=
  ∃ l, a = .arr l ∧ l ≠ [] ∧ ∀ e ∈ l, elemOK e = true

/-- Every folder open recorded in the trace is in read-write mode. -/
def opensOnlyReadWrite (tr : List Effect) : Bool :=
  tr.all (fun e => match e with | .openBox _ ro => !ro | _ => true)

/-- Every folder open recorded in the trace is in read-only mode. -/
def opensOnlyReadOnly (tr : List Effect) : Bool :=
  tr.all (fun e => match e with | .openBox _ ro => ro | _ => true)

/-- The comma-space join of a UID list used in the caller-visible texts of
server.js lines 859 and 869. -/
def joinUIDs (us : List Int) : String :=
  String.intercalate ", " (us.map toString)

/-- The exact caller-visible text of each `modifyEmails` outcome
(server.js lines 832-871): `inl` is a resolved text, `inr` a rejection. -/
def renderModify : ModifyOutcome → String ⊕ String
  | .validationErr e => .inl ("Error: " ++ e)
  | .folderErr f => .inr ("Failed to open folder \x22" ++ f ++ "\x22")
  | .uidNotFoundErr us =>
      .inr ("One or more UIDs not found: " ++ joinUIDs us ++
        ". They may have been deleted or moved.")
  | .otherErr m => .inr m
  | .success opName c us =>
      .inl ("Successfully " ++ opName ++ " " ++ toString c ++
        " email(s) with UIDs: " ++ joinUIDs us)

/-- C10: calling the public read operation with a single non-array
identifier value behaves identically to calling it with the one-element
array containing that value, for every store, value and folder. -/
theorem readEmail_single_eq_singleton (st : Store) (e : Elem)
    (folder : String) :
    readEmail st (.nonArr e) folder = readEmail st (.arr [e]) folder := rfl

/-- C5: when the `uids` argument of a mutate call fails validation, the
call resolves with the validation error text, the mail store is untouched,
and the effect trace is empty — no connection is created and no folder is
opened. -/
theorem modifyEmails_validation_precedes_io (op : Operation)
    (opName : String) (st : Store) (uids : JSArg) (folder : String)
    (e : String) (h : validateUIDs uids = some e) :
    modifyEmails op opName st uids folder = (.validationErr e, st, []) := by
  unfold modifyEmails
  rw [h]

/-- Witness for C5: the empty array and the array containing -1 both fail
validation, and the mutate call performs no I/O on them. -/
theorem modifyEmails_validation_precedes_io_witness :
    validateUIDs (.arr []) = some "uids cannot be empty"
  ∧ modifyEmails (addFlagsOp "\\Seen") "marked as read"
      [("INBOX", [])] (.arr []) "INBOX" =
      (.validationErr "uids cannot be empty", [("INBOX", [])], [])
  ∧ validateUIDs (.arr [.intNum (-1)]) =
      some "uids contains invalid values (must be positive integers)"
  ∧ modifyEmails (addFlagsOp "\\Seen") "marked as read"
      [("INBOX", [])] (.arr [.intNum (-1)]) "INBOX" =
      (.validationErr
        "uids contains invalid values (must be positive integers)",
        [("INBOX", [])], []) :=
  ⟨rfl,
   modifyEmails_validation_precedes_io _ _ _ _ _ _ rfl,
   rfl,
   modifyEmails_validation_precedes_io _ _ _ _ _ _ rfl⟩

/-- C7: when the `uids` argument validates but the target folder cannot be
opened, the whole mutate call is rejected with the folder error, the store
is unchanged, and the trace shows the connection was opened and closed with
no mutation command issued on any identifier. -/
theorem modifyEmails_folder_unavailable (op : Operation) (opName : String)
    (st : Store) (uids : JSArg) (folder : String)
    (hv : validateUIDs uids = none) (hf : lookupFolder st folder = none) :
    modifyEmails op opName st uids folder =
      (.folderErr folder, st,
        [.connect, .openBox folder false, .endConn]) := by
  unfold modifyEmails
  rw [hv, hf]

/-- Witness for C7: opening a folder missing from the store fails the
whole call with no mutation attempted. -/
theorem modifyEmails_folder_unavailable_witness :
    validateUIDs (.arr [.intNum 1]) = none
  ∧ lookupFolder [("INBOX", [])] "Junk" = none
  ∧ modifyEmails (moveOp "Trash") "moved to Trash" [("INBOX", [])]
      (.arr [.intNum 1]) "Junk" =
      (.folderErr "Junk", [("INBOX", [])],
        [.connect, .openBox "Junk" false, .endConn]) :=
  ⟨rfl, rfl,
   modifyEmails_folder_unavailable _ _ _ _ _ rfl rfl⟩

/-- C8: every batch mutation call (hence every flag change, move, delete
and archive, all of which go through `modifyEmails`) opens its folder in
read-write mode only, and every read, listing and search call opens its
folder in read-only mode only, for all stores, arguments and folders. -/
theorem open_mode_invariant :
    (∀ (op : Operation) (opName : String) (st : Store) (uids : JSArg)
        (folder : String),
      opensOnlyReadWrite (modifyEmails op opName st uids folder).2.2 = true)
  ∧ (∀ (st : Store) (uids : JSArg) (folder : String),
      opensOnlyReadOnly (readEmails st uids folder).2 = true)
  ∧ (∀ (st : Store) (count : Int) (folder : String) (offset : Int),
      opensOnlyReadOnly (listEmails st count folder offset).2 = true)
  ∧ (∀ (st : Store) (crit : Message → Bool) (qp : Bool) (count : Int)
        (folder : String),
      opensOnlyReadOnly (searchEmails st crit qp count folder).2 = true) := by
  refine ⟨?_, ?_, ?_, ?_⟩
  · intro op opName st uids folder
    unfold modifyEmails
    cases validateUIDs uids with
    | some e => rfl
    | none =>
      cases lookupFolder st folder with
      | none => rfl
      | some msgs =>
        dsimp only
        cases (op folder (getUids uids) st).1 with
        | some m =>
          by_cases hc :
            (strContains m "UID" || strContains m "No matching messages") =
              true <;> simp [hc] <;> rfl
        | none => rfl
  · intro st uids folder
    unfold readEmails
    cases validateUIDs uids with
    | some e => rfl
    | none =>
      cases lookupFolder st folder with
      | none => rfl
      | some msgs =>
        dsimp only
        by_cases hm :
            (missingOf msgs (getUids uids)).isEmpty = true <;>
          simp [hm] <;> rfl
  · intro st count folder offset
    unfold listEmails
    by_cases h1 : count < 1
    · simp [h1]; rfl
    · by_cases h2 : count > 50
      · simp [h1, h2]; rfl
      · by_cases h3 : offset < 0
        · simp [h1, h2, h3]; rfl
        · simp only [h1, h2, h3, if_false]
          cases lookupFolder st folder with
          | none => rfl
          | some msgs =>
            dsimp only
            by_cases h4 : (msgs.length : Int) = 0
            · simp [h4]; rfl
            · simp only [h4, if_false]
              by_cases h5 :
                  max 1 ((msgs.length : Int) - offset - count + 1) >
                    max 1 ((msgs.length : Int) - offset) <;>
                simp [h5] <;> rfl
  · intro st crit qp count folder
    unfold searchEmails
    by_cases h0 : qp
    · by_cases h1 : count < 1
      · simp [h0, h1]; rfl
      · simp only [h0, h1, Bool.not_true, if_false, Bool.false_eq_true]
        cases lookupFolder st folder with
        | none => rfl
        | some msgs =>
          dsimp only
          by_cases h2 : ((msgs.filter crit).map (fun m => m.uid)).isEmpty =
              true <;>
            simp [h2] <;> rfl
    · simp [h0]; rfl

/-- A filter returns the empty list exactly when no element satisfies the
predicate. -/
theorem filter_nil_iff_all_not (p : α → Bool) (l : List α) :
    l.filter p = [] ↔ ∀ a ∈ l, p a = false := by
  induction l with
  | nil => simp
  | cons x xs ih => cases hx : p x <;> simp [List.filter_cons, hx, ih]

/-- An element is invalid exactly when it is not an integer strictly
greater than zero. -/
theorem isInvalidElem_eq_not_elemOK (e : Elem) :
    isInvalidElem e = !elemOK e := by
  cases e with
  | intNum n =>
      by_cases h : n ≤ 0
      · simp [isInvalidElem, elemOK, h, not_lt.mpr h]
      · simp [isInvalidElem, elemOK, h, lt_of_not_le h]
  | fracNum => rfl
  | nullv => rfl
  | undef => rfl
  | other => rfl

/-- The validator on an array input: empty arrays fail with the empty-batch
message, arrays with an element that is not a positive integer fail with
the fixed invalid-values message, and all other arrays are accepted. -/
theorem validateUIDs_arr (l : List Elem) :
    validateUIDs (.arr l) =
      if l.length = 0 then some "uids cannot be empty"
      else if l.all elemOK then none
      else some "uids contains invalid values (must be positive integers)" := by
  by_cases h0 : l.length = 0
  · simp [validateUIDs, h0]
  · by_cases hall : l.all elemOK = true
    · have h1 : l.filter isInvalidElem = [] :=
        (filter_nil_iff_all_not _ _).mpr (fun a ha => by
          rw [isInvalidElem_eq_not_elemOK a]
          simp [List.all_eq_true.mp hall a ha])
      simp [validateUIDs, h0, hall, h1]
    · have h1 : l.filter isInvalidElem ≠ [] := by
        intro hnil
        apply hall
        rw [List.all_eq_true]
        intro a ha
        have hf := (filter_nil_iff_all_not _ _).mp hnil a ha
        rw [isInvalidElem_eq_not_elemOK a] at hf
        simpa using hf
      have h2 : 0 < (l.filter isInvalidElem).length :=
        List.length_pos.mpr h1
      simp [validateUIDs, h0, hall, h2]

/-- C6 (amended): the validator checks its rules in the stated order —
missing (falsy) input, then not-an-array, then empty array, then any
element that is not an integer strictly greater than zero — returning a
distinct fixed message for the first rule violated; the invalid-element
message does not name the offending values; and it accepts exactly the
non-empty arrays all of whose elements are positive integers, duplicates
included. -/
theorem validateUIDs_characterization :
    (∀ a, validateUIDs a = none ↔ isGoodUids a)
  ∧ (∀ e, validateUIDs (.nonArr e) =
      some (if falsy e then "uids is required" else "uids must be an array"))
  ∧ validateUIDs (.arr []) = some "uids cannot be empty"
  ∧ (∀ e l, validateUIDs (.arr (e :: l)) =
      if (e :: l).all elemOK then none
      else some "uids contains invalid values (must be positive integers)") := by
  refine ⟨?_, ?_, rfl, ?_⟩
  · intro a
    constructor
    · intro h
      cases a with
      | nonArr e =>
          unfold validateUIDs at h
          by_cases hf : falsy e <;> simp [hf] at h
      | arr l =>
          rw [validateUIDs_arr] at h
          by_cases h0 : l.length = 0
          · simp [h0] at h
          · by_cases hall : l.all elemOK = true
            · exact ⟨l, rfl, fun hl => h0 (by simp [hl]),
                fun e he => List.all_eq_true.mp hall e he⟩
            · simp [h0, hall] at h
    · rintro ⟨l, rfl, hne, hall⟩
      rw [validateUIDs_arr]
      simp [hne, List.all_eq_true.mpr hall]
  · intro e
    unfold validateUIDs
    by_cases hf : falsy e <;> simp [hf]
  · intro e l
    rw [validateUIDs_arr]
    simp

/-- C6 counterexample: the validator accepts the array [1, 1], whose
identifiers are not distinct, and its invalid-element failure for [-1] is
a fixed message that does not name the offending value -1 — refuting both
the "accepts exactly ... distinct positive integers" and the "naming the
offending values" parts of the claim as stated. -/
theorem validateUIDs_claim_counterexample :
    validateUIDs (.arr [.intNum 1, .intNum 1]) = none
  ∧ ¬ ([Elem.intNum 1, Elem.intNum 1].Nodup)
  ∧ validateUIDs (.arr [.intNum (-1)]) =
      some "uids contains invalid values (must be positive integers)"
  ∧ strContains "uids contains invalid values (must be positive integers)"
      "-1" = false :=
  ⟨rfl, by decide, rfl, rfl⟩

/-- C1 (amended): the engine's success/failure attribution is
all-or-nothing. For every validated input, either the call resolves and
reports exactly the input identifier list (in order, occurrence for
occurrence) as succeeded with no failed identifiers, or the whole call is
rejected — naming either the entire input list (for UID-classified errors)
or no identifiers at all. It never reports a proper partition with both a
nonempty succeeded part and a nonempty failed part. -/
theorem modifyEmails_all_or_nothing (op : Operation) (opName : String)
    (st : Store) (uids : JSArg) (folder : String)
    (h : validateUIDs uids = none) :
    (reportedSucceeded (modifyEmails op opName st uids folder).1 =
        getUids uids
      ∧ reportedFailed (modifyEmails op opName st uids folder).1 = [])
  ∨ (reportedSucceeded (modifyEmails op opName st uids folder).1 = []
      ∧ (reportedFailed (modifyEmails op opName st uids folder).1 =
            getUids uids
        ∨ reportedFailed (modifyEmails op opName st uids folder).1 = [])) := by
  unfold modifyEmails
  rw [h]
  cases hf : lookupFolder st folder with
  | none => exact Or.inr ⟨rfl, Or.inr rfl⟩
  | some msgs =>
    dsimp only
    cases hop : (op folder (getUids uids) st).1 with
    | some m =>
      by_cases hc :
        (strContains m "UID" || strContains m "No matching messages") = true
      · simp [hc, reportedSucceeded, reportedFailed]
      · simp [hc, reportedSucceeded, reportedFailed]
    | none => exact Or.inl ⟨rfl, rfl⟩

/-- Witness for C1 (amended) at a concrete store and input. -/
theorem modifyEmails_all_or_nothing_witness :
    validateUIDs (.arr [.intNum 1]) = none
  ∧ ((reportedSucceeded
        (modifyEmails (addFlagsOp "\\Seen") "marked as read"
          [("INBOX", [⟨1, [], 0, "m"⟩])] (.arr [.intNum 1]) "INBOX").1 =
          getUids (.arr [.intNum 1])
      ∧ reportedFailed
          (modifyEmails (addFlagsOp "\\Seen") "marked as read"
            [("INBOX", [⟨1, [], 0, "m"⟩])] (.arr [.intNum 1]) "INBOX").1 = [])
    ∨ (reportedSucceeded
          (modifyEmails (addFlagsOp "\\Seen") "marked as read"
            [("INBOX", [⟨1, [], 0, "m"⟩])] (.arr [.intNum 1]) "INBOX").1 = []
        ∧ (reportedFailed
              (modifyEmails (addFlagsOp "\\Seen") "marked as read"
                [("INBOX", [⟨1, [], 0, "m"⟩])] (.arr [.intNum 1]) "INBOX").1 =
              getUids (.arr [.intNum 1])
          ∨ reportedFailed
              (modifyEmails (addFlagsOp "\\Seen") "marked as read"
                [("INBOX", [⟨1, [], 0, "m"⟩])] (.arr [.intNum 1]) "INBOX").1 =
              []))) :=
  ⟨rfl,
   modifyEmails_all_or_nothing (addFlagsOp "\\Seen") "marked as read"
     [("INBOX", [⟨1, [], 0, "m"⟩])] (.arr [.intNum 1]) "INBOX" rfl⟩

/-- C1 counterexample: the duplicated input [1, 1] passes validation, and
the success report lists identifier 1 twice (and counts it twice in the
caller-visible text), so the reported identifiers do not partition the
requested identifier set with each identifier appearing exactly once. -/
theorem modifyEmails_partition_counterexample :
    validateUIDs (.arr [.intNum 1, .intNum 1]) = none
  ∧ reportedSucceeded
      (markAsRead [("INBOX", [⟨1, [], 0, "m"⟩])]
        (.arr [.intNum 1, .intNum 1]) "INBOX").1 = [1, 1]
  ∧ reportedFailed
      (markAsRead [("INBOX", [⟨1, [], 0, "m"⟩])]
        (.arr [.intNum 1, .intNum 1]) "INBOX").1 = []
  ∧ ¬ (([1, 1] ++ []) : List Int).Nodup
  ∧ renderModify
      (markAsRead [("INBOX", [⟨1, [], 0, "m"⟩])]
        (.arr [.intNum 1, .intNum 1]) "INBOX").1 =
      .inl "Successfully marked as read 2 email(s) with UIDs: 1, 1" :=
  ⟨rfl, rfl, rfl, by decide, rfl⟩

/-- C2 (amended): whenever the single bulk mutation command reports
success, the engine resolves with a succeeded count equal to the length of
the input identifier list — the engine performs no per-identifier
verification of the store, so this count is independent of how many
message states actually changed. -/
theorem modifyEmails_reports_input_length (op : Operation) (opName : String)
    (st : Store) (uids : JSArg) (folder : String) (msgs : List Message)
    (h : validateUIDs uids = none) (hf : lookupFolder st folder = some msgs)
    (hop : (op folder (getUids uids) st).1 = none) :
    (modifyEmails op opName st uids folder).1 =
      .success opName (getUids uids).length (getUids uids) := by
  unfold modifyEmails
  rw [h, hf]
  dsimp only
  rw [hop]

/-- Witness for C2 (amended) at a concrete store and input. -/
theorem modifyEmails_reports_input_length_witness :
    validateUIDs (.arr [.intNum 1]) = none
  ∧ lookupFolder [("INBOX", [⟨1, [], 0, "m"⟩])] "INBOX" =
      some [⟨1, [], 0, "m"⟩]
  ∧ (addFlagsOp "\\Flagged" "INBOX" (getUids (.arr [.intNum 1]))
      [("INBOX", [⟨1, [], 0, "m"⟩])]).1 = none
  ∧ (modifyEmails (addFlagsOp "\\Flagged") "flagged"
      [("INBOX", [⟨1, [], 0, "m"⟩])] (.arr [.intNum 1]) "INBOX").1 =
      .success "flagged" (getUids (.arr [.intNum 1])).length
        (getUids (.arr [.intNum 1])) :=
  ⟨rfl, rfl, rfl,
   modifyEmails_reports_input_length (addFlagsOp "\\Flagged") "flagged"
     [("INBOX", [⟨1, [], 0, "m"⟩])] (.arr [.intNum 1]) "INBOX"
     [⟨1, [], 0, "m"⟩] rfl rfl rfl⟩

/-- C2 counterexample: the claim fails on the code in two concrete runs.
With the folder holding only UID 1 (unseen), marking [1, 2] as read
resolves with succeeded count 2 although only one message state changed;
and with UID 1 already seen, marking [1] as read resolves with succeeded
count 1 although no store state changed at all. In both runs the reported
count is simply the input length and exceeds the number actually
mutated. -/
theorem modifyEmails_count_counterexample :
    validateUIDs (.arr [.intNum 1, .intNum 2]) = none
  ∧ (markAsRead [("INBOX", [⟨1, [], 0, "m"⟩])]
      (.arr [.intNum 1, .intNum 2]) "INBOX").1 =
      .success "marked as read" 2 [1, 2]
  ∧ countChanged [("INBOX", [⟨1, [], 0, "m"⟩])]
      (markAsRead [("INBOX", [⟨1, [], 0, "m"⟩])]
        (.arr [.intNum 1, .intNum 2]) "INBOX").2.1
      "INBOX" [1, 2] = 1
  ∧ (2 : Nat) ≠ 1
  ∧ (markAsRead [("INBOX", [⟨1, ["\\Seen"], 0, "m"⟩])]
      (.arr [.intNum 1]) "INBOX").1 = .success "marked as read" 1 [1]
  ∧ countChanged [("INBOX", [⟨1, ["\\Seen"], 0, "m"⟩])]
      (markAsRead [("INBOX", [⟨1, ["\\Seen"], 0, "m"⟩])]
        (.arr [.intNum 1]) "INBOX").2.1
      "INBOX" [1] = 0 :=
  ⟨rfl, rfl, rfl, by decide, rfl, rfl⟩

/-- C3 (amended): when the single bulk mutation command fails, the engine
rejects the whole call — as a not-found rejection naming the entire input
list when the error message mentions UID or No matching messages, and as a
pass-through rejection otherwise — and its trace shows exactly one
mutation command was issued: there is no per-identifier retry and no
per-identifier accumulation of outcomes. -/
theorem modifyEmails_bulk_failure_no_retry (op : Operation)
    (opName : String) (st : Store) (uids : JSArg) (folder : String)
    (msgs : List Message) (e : String) (h : validateUIDs uids = none)
    (hf : lookupFolder st folder = some msgs)
    (hop : (op folder (getUids uids) st).1 = some e) :
    (modifyEmails op opName st uids folder).1 =
      (if strContains e "UID" || strContains e "No matching messages"
        then ModifyOutcome.uidNotFoundErr (getUids uids)
        else ModifyOutcome.otherErr e)
  ∧ ((modifyEmails op opName st uids folder).2.2).count Effect.runOp = 1 := by
  have hcall : modifyEmails op opName st uids folder =
      ((if strContains e "UID" || strContains e "No matching messages"
          then ModifyOutcome.uidNotFoundErr (getUids uids)
          else ModifyOutcome.otherErr e),
        (op folder (getUids uids) st).2,
        [.connect, .openBox folder false, .runOp, .endConn]) := by
    unfold modifyEmails
    rw [h, hf]
    dsimp only
    rw [hop]
    by_cases hc :
      (strContains e "UID" || strContains e "No matching messages") = true
    · simp [hc]
    · simp [hc]
  rw [hcall]
  exact ⟨rfl, rfl⟩

/-- Witness for C3 (amended): moving two absent UIDs out of an existing
folder fails the bulk command and the engine rejects the whole call after
that single command. -/
theorem modifyEmails_bulk_failure_no_retry_witness :
    validateUIDs (.arr [.intNum 1, .intNum 2]) = none
  ∧ lookupFolder [("INBOX", []), ("Trash", [])] "INBOX" = some []
  ∧ (moveOp "Trash" "INBOX" (getUids (.arr [.intNum 1, .intNum 2]))
      [("INBOX", []), ("Trash", [])]).1 = some "No matching messages"
  ∧ ((modifyEmails (moveOp "Trash") "moved to Trash"
        [("INBOX", []), ("Trash", [])] (.arr [.intNum 1, .intNum 2])
        "INBOX").1 =
      (if strContains "No matching messages" "UID" ||
          strContains "No matching messages" "No matching messages"
        then ModifyOutcome.uidNotFoundErr
          (getUids (.arr [.intNum 1, .intNum 2]))
        else ModifyOutcome.otherErr "No matching messages")
    ∧ ((modifyEmails (moveOp "Trash") "moved to Trash"
          [("INBOX", []), ("Trash", [])] (.arr [.intNum 1, .intNum 2])
          "INBOX").2.2).count Effect.runOp = 1) :=
  ⟨rfl, rfl, rfl,
   modifyEmails_bulk_failure_no_retry (moveOp "Trash") "moved to Trash"
     [("INBOX", []), ("Trash", [])] (.arr [.intNum 1, .intNum 2]) "INBOX"
     [] "No matching messages" rfl rfl rfl⟩

/-- C3 counterexample: deleting UIDs [1, 2] from a folder that contains
neither makes the bulk command fail without identifying which identifier is
at fault; the engine then rejects the whole call naming both input UIDs,
issues no further mutation command (the trace holds exactly one), and
accumulates no per-identifier outcome — it does not retry each identifier
individually as the claim states. -/
theorem modifyEmails_no_retry_counterexample :
    deleteEmails [("INBOX", []), ("Trash", [])]
      (.arr [.intNum 1, .intNum 2]) "INBOX" =
      (.uidNotFoundErr [1, 2], [("INBOX", []), ("Trash", [])],
        [.connect, .openBox "INBOX" false, .runOp, .endConn])
  ∧ ([Effect.connect, .openBox "INBOX" false, .runOp,
      .endConn].count Effect.runOp) = 1
  ∧ reportedSucceeded (ModifyOutcome.uidNotFoundErr [1, 2]) = [] :=
  ⟨rfl, rfl, rfl⟩

/-- A requested identifier carried by no message of the folder ends up in
the missing list computed by the read engine. -/
theorem mem_missingOf_of_absent (msgs : List Message) (us : List Int)
    (u : Int) (hu : u ∈ us) (habs : ∀ m ∈ msgs, m.uid ≠ u) :
    u ∈ missingOf msgs us := by
  unfold missingOf
  rw [List.mem_filter]
  refine ⟨hu, ?_⟩
  simp only [Bool.not_eq_true']
  cases hcon :
      ((fetchedOf msgs us).map (fun m => m.uid)).contains u with
  | false => rfl
  | true =>
    exfalso
    rcases List.mem_map.mp (List.mem_of_elem_eq_true hcon) with ⟨m, hm, hmu⟩
    exact habs m (List.mem_of_mem_filter hm) hmu

/-- C4 (amended): when some requested identifiers are absent from the
fetch results, the read call rejects with an error that names exactly the
missing identifiers together with the found and requested counts — every
requested identifier with no message in the folder is among the named
missing ones, so none is silently omitted — but the successfully fetched
message contents are NOT returned alongside: the rejection carries no
contents. -/
theorem readEmails_missing_rejected (st : Store) (uids : JSArg)
    (folder : String) (msgs : List Message)
    (h : validateUIDs uids = none) (hf : lookupFolder st folder = some msgs)
    (hm : (missingOf msgs (getUids uids)).isEmpty = false) :
    (readEmails st uids folder).1 =
      .notFoundErr (missingOf msgs (getUids uids))
        (fetchedOf msgs (getUids uids)).length (getUids uids).length
  ∧ returnedEmails (readEmails st uids folder).1 = []
  ∧ (∀ u ∈ getUids uids, lookupMsg st folder u = none →
      u ∈ missingOf msgs (getUids uids)) := by
  have hcall : (readEmails st uids folder).1 =
      .notFoundErr (missingOf msgs (getUids uids))
        (fetchedOf msgs (getUids uids)).length (getUids uids).length := by
    unfold readEmails
    rw [h, hf]
    simp [hm]
  refine ⟨hcall, by rw [hcall]; rfl, ?_⟩
  intro u hu habs
  have hfind : msgs.find? (fun m => m.uid = u) = none := by
    unfold lookupMsg at habs
    rw [hf] at habs
    exact habs
  refine mem_missingOf_of_absent msgs (getUids uids) u hu ?_
  intro m hm2
  have := List.find?_eq_none.mp hfind m hm2
  simpa using this

/-- Witness for C4 (amended): requesting UIDs [1, 2] from a folder holding
only UID 1 rejects naming UID 2 with counts 1 of 2, and returns no
contents. -/
theorem readEmails_missing_rejected_witness :
    validateUIDs (.arr [.intNum 1, .intNum 2]) = none
  ∧ lookupFolder [("INBOX", [⟨1, [], 3, "hello"⟩])] "INBOX" =
      some [⟨1, [], 3, "hello"⟩]
  ∧ (missingOf [⟨1, [], 3, "hello"⟩]
      (getUids (.arr [.intNum 1, .intNum 2]))).isEmpty = false
  ∧ ((readEmails [("INBOX", [⟨1, [], 3, "hello"⟩])]
        (.arr [.intNum 1, .intNum 2]) "INBOX").1 =
      .notFoundErr
        (missingOf [⟨1, [], 3, "hello"⟩]
          (getUids (.arr [.intNum 1, .intNum 2])))
        (fetchedOf [⟨1, [], 3, "hello"⟩]
          (getUids (.arr [.intNum 1, .intNum 2]))).length
        (getUids (.arr [.intNum 1, .intNum 2])).length
    ∧ returnedEmails
        (readEmails [("INBOX", [⟨1, [], 3, "hello"⟩])]
          (.arr [.intNum 1, .intNum 2]) "INBOX").1 = []
    ∧ (∀ u ∈ getUids (.arr [.intNum 1, .intNum 2]),
        lookupMsg [("INBOX", [⟨1, [], 3, "hello"⟩])] "INBOX" u = none →
          u ∈ missingOf [⟨1, [], 3, "hello"⟩]
            (getUids (.arr [.intNum 1, .intNum 2])))) :=
  ⟨rfl, rfl, rfl,
   readEmails_missing_rejected [("INBOX", [⟨1, [], 3, "hello"⟩])]
     (.arr [.intNum 1, .intNum 2]) "INBOX" [⟨1, [], 3, "hello"⟩]
     rfl rfl rfl⟩

/-- C4 counterexample: with UID 1 present (content "hello") and UID 2
absent, the read call does name 2 as missing, but it rejects the whole
call and returns no message contents at all — the content of the found
UID 1 is not returned alongside, contrary to the claim. -/
theorem readEmails_found_not_returned_counterexample :
    (readEmails [("INBOX", [⟨1, [], 3, "hello"⟩])]
      (.arr [.intNum 1, .intNum 2]) "INBOX").1 = .notFoundErr [2] 1 2
  ∧ lookupMsg [("INBOX", [⟨1, [], 3, "hello"⟩])] "INBOX" 1 =
      some ⟨1, [], 3, "hello"⟩
  ∧ returnedEmails
      (readEmails [("INBOX", [⟨1, [], 3, "hello"⟩])]
        (.arr [.intNum 1, .intNum 2]) "INBOX").1 = [] :=
  ⟨rfl, rfl, rfl⟩

/-- The empty-window guard of `listEmails` (server.js line 512) can never
fire once `count ≥ 1`: both window endpoints are clamped to at least 1, so
the start never exceeds the end and the "Offset exceeds available
messages" branch is unreachable. -/
theorem listEmails_guard_unreachable (total offset count : Int)
    (h : 1 ≤ count) :
    ¬ (max 1 (total - offset - count + 1) > max 1 (total - offset)) := by
  omega

/-- C9: evaluated at the spec's own boundary example — a folder with 5
messages, count 10, offset 1000 — the listing call does not return an
empty email list with the true total: because both sequence-window
endpoints are clamped to 1, it fetches sequence 1:1 and returns the oldest
message (UID 11) alongside totalCount 5. The code's dead guard branch
(`listEmails_guard_unreachable`) shows the intended empty-result exit can
never fire, so the claim states the intent and the code diverges from
it. -/
theorem listEmails_offset_overrun_bug :
    (listEmails
      [("INBOX",
        [⟨11, [], 0, "a"⟩, ⟨12, [], 0, "b"⟩, ⟨13, [], 0, "c"⟩,
          ⟨14, [], 0, "d"⟩, ⟨15, [], 0, "e"⟩])]
      10 "INBOX" 1000).1 =
      .success [⟨11, 1, 0, []⟩] 5 1000 10 none
  ∧ ([Listed.mk 11 1 0 []] : List Listed) ≠ [] :=
  ⟨rfl, by decide⟩

end YahooMail
